import Mathlib

/-!
# Verification of the goat-scraper AI chat pipeline

Shallow embedding of the chat streaming pipeline of the goat-scraper
frontend:

* the server chat endpoint `POST` of `src/frontend/app/api/chat/route.ts`
  (field validation, provider routing, system-prompt construction);
* the PDF text extractors `extractTextFromPdfUrl` and `extractTextFromFile`
  of the pdf-extract library module;
* the client sidebar logic of
  `src/frontend/components/ai-assistant-sidebar.tsx` (`onSubmit` with its
  context aggregation, `handleSelectFromQueue`, `handleFileUpload`,
  `removeAttachment`).

JavaScript strings are Lean `String`; a JavaScript value that may be
`undefined`/`null` is an `Option String`, and JavaScript truthiness of such
a value (`undefined`, `null` and the empty string are falsy) is `jsTruthy`.
Asynchronous extraction calls that may throw are embedded by passing each
call's outcome (`Except String String`) as data to the handler that awaits
it.  UI-only effects (alerts, loading spinners, localStorage writes) are
not part of the state.
-/

/-- JavaScript truthiness of a `string | undefined | null` value:
`undefined`, `null` and `""` are falsy, every other string is truthy. -/
def jsTruthy : Option String → Bool
  | none => false
  | some s => !(s == "")

/-- `JSON.stringify(\x7b error: msg \x7d)` for a message without
characters needing escaping, as used by the route's error responses. -/
def jsonError (msg : String) : String :=
  "\x7b\"error\":\"" ++ msg ++ "\"\x7d"

/-- Body of the 400 response at route.ts line 14. -/
def missingFieldBody : String := jsonError "Missing provider or API key"

/-- Body of the 400 response at route.ts line 33. -/
def invalidProviderBody : String := jsonError "Invalid provider"

/-- The provider client constructed at route.ts lines 20-31: which SDK
factory was called and with which credential (`createOpenAI`,
`createAnthropic`, `createGoogleGenerativeAI` receive an API key;
`createOllama` receives a base URL). -/
inductive ProviderClient where
  | openai (apiKey : String)
  | anthropic (apiKey : String)
  | google (apiKey : String)
  | ollama (baseURL : String)
deriving DecidableEq

/-- A routed model: the provider client together with the fixed model
identifier passed to it. -/
structure ResolvedModel where
  client : ProviderClient
  modelId : String
deriving DecidableEq

/-- The provider branching of route.ts lines 20-34: each known provider
name yields its client and fixed model identifier; for `ollama` the
credential is the base URL, with the literal default when it is empty
(`apiKey || "http://localhost:11434/api"`); any other name yields no
model (the route then answers 400 Invalid provider). -/
def resolveProvider (provider apiKey : String) : Option ResolvedModel :=
  if provider == "openai" then
    some ⟨.openai apiKey, "gpt-4o"⟩
  else if provider == "anthropic" then
    some ⟨.anthropic apiKey, "claude-3-5-sonnet-latest"⟩
  else if provider == "google" then
    some ⟨.google apiKey, "gemini-2.5-flash"⟩
  else if provider == "ollama" then
    some ⟨.ollama (if apiKey == "" then "http://localhost:11434/api" else apiKey),
      "llama3.1"⟩
  else
    none

/-- The fixed system instruction of route.ts lines 40-43, before the
optional context block. -/
def studyAssistantSystem : String :=
  "You are an AI Study Assistant embedded in a document reader application (similar to NotebookLM).\nYour goal is to help the user understand the documents they are reading.\nIf the user provides document context in their messages (e.g. text extracted from a PDF), you must base your answers primarily on that context.\nBe concise, helpful, and educational."

/-- The system prompt sent to the model: the fixed instruction plus, when
the request carried a truthy `context`, a trailing Document Context block
(route.ts line 43). -/
def systemWithContext (context : Option String) : String :=
  studyAssistantSystem ++
    (if jsTruthy context then "\n\nDocument Context:\n" ++ context.getD "" else "")

/-- Outcome of the POST handler on a parsed request body: a 400 response
with the given JSON body, or a routed model together with the system
prompt handed to `streamText`. -/
inductive PostResult where
  | badRequest (body : String)
  | ok (model : ResolvedModel) (system : String)
deriving DecidableEq

/-- The POST handler of route.ts lines 9-46, restricted to validation,
routing and system-prompt construction (the streaming call itself is
effectful).  `provider`, `apiKey` and `context` are the destructured
request fields, absent fields being `none`.  Line 13 rejects when
`provider` or `apiKey` is falsy; lines 20-34 route; line 43 builds the
system prompt. -/
def POST (provider apiKey context : Option String) : PostResult :=
  if !(jsTruthy provider) || !(jsTruthy apiKey) then
    .badRequest missingFieldBody
  else
    match resolveProvider (provider.getD "") (apiKey.getD "") with
    | some m => .ok m (systemWithContext context)
    | none => .badRequest invalidProviderBody

/-! ## Extraction Service (pdf-extract module) -/

/-- A decoded PDF document: for each page in order, the `str` fields of
its text-content items as produced by `page.getTextContent()`. -/
structure PdfDocument where
  pages : List (List String)
deriving DecidableEq

/-- Per-page text: `textContent.items.map(item => item.str).join(' ')`. -/
def pageText (items : List String) : String :=
  String.intercalate " " items

/-- The page loop shared by both extractors: starting from the empty
string, `fullText += pageText + "\n\n"` for each processed page in
order. -/
def pdfPagesLoop (pages : List (List String)) : String :=
  pages.foldl (fun fullText page => fullText ++ (pageText page ++ "\n\n")) ""

/-- `extractTextFromPdfUrl` (pdf-extract lines 90-120): runs the page
loop over the first `min(numPages, 50)` pages and, when `numPages >
maxPages`, appends the literal truncation notice. -/
def extractTextFromPdfUrl (pdf : PdfDocument) : String :=
  let numPages := pdf.pages.length
  let maxPages := min numPages 50
  let fullText := pdfPagesLoop (pdf.pages.take maxPages)
  if numPages > maxPages then
    fullText ++ ("\n\n[Note: Document truncated to first " ++ toString maxPages
      ++ " pages due to size limits.]")
  else
    fullText

/-- A locally supplied file: a PDF blob (file.type is application/pdf)
or a text-like file with its raw text content. -/
inductive UploadFile where
  | pdf (doc : PdfDocument)
  | textFile (content : String)
deriving DecidableEq

/-- `extractTextFromFile` (pdf-extract lines 122-145): for a PDF, the
same page loop over the first `min(numPages, 50)` pages — with no
truncation notice; for any other file, the raw text unmodified. -/
def extractTextFromFile : UploadFile → String
  | .pdf doc => pdfPagesLoop (doc.pages.take (min doc.pages.length 50))
  | .textFile content => content

/-- The literal truncation notice appended by `extractTextFromPdfUrl`
when more than 50 pages exist (so `maxPages` is 50). -/
def truncationNotice50 : String :=
  "\n\n[Note: Document truncated to first 50 pages due to size limits.]"

/-! ## Client sidebar (ai-assistant-sidebar.tsx) -/

/-- Semantics of JavaScript `Array.prototype.join(sep)`. -/
def joinSep (sep : String) : List String → String
  | [] => ""
  | [a] => a
  | a :: b :: t => a ++ sep ++ joinSep sep (b :: t)

/-- An entry of `attachedFilesContext`: `\x7b name, content \x7d`. -/
structure Attachment where
  name : String
  content : String
deriving DecidableEq

/-- The active-document section pushed at sidebar line 193. -/
def activeSection (title content : String) : String :=
  "--- Active Document: " ++ title ++ " ---\n" ++ content

/-- The attached-document section pushed at sidebar line 197. -/
def attachedSection (a : Attachment) : String :=
  "--- Attached Document: " ++ a.name ++ " ---\n" ++ a.content

/-- The `contextFragments` array built at sidebar lines 191-198: the
active-document section when `activeFileTitle && activeFileContext` is
truthy, then one section per attachment in list order. -/
def contextFragments (activeFileTitle activeFileContext : Option String)
    (attachedFilesContext : List Attachment) : List String :=
  (if jsTruthy activeFileTitle && jsTruthy activeFileContext then
    [activeSection (activeFileTitle.getD "") (activeFileContext.getD "")]
  else []) ++ attachedFilesContext.map attachedSection

/-- Sidebar line 200: `contextFragments.length > 0 ?
contextFragments.join('\n\n') : undefined`. -/
def aggregateContext (activeFileTitle activeFileContext : Option String)
    (attachedFilesContext : List Attachment) : Option String :=
  let fragments := contextFragments activeFileTitle activeFileContext attachedFilesContext
  if fragments.length > 0 then some (joinSep "\n\n" fragments) else none

/-- The context field of the request body built at sidebar line 208:
`...(context ? \x7b context \x7d : \x7b\x7d)` — present iff the
aggregated context is truthy. -/
def requestBodyContext (context : Option String) : Option String :=
  if jsTruthy context then context else none

/-- The tab shown by the sidebar. -/
inductive View where
  | chat
  | settings
deriving DecidableEq

/-- The `useChat` status values. -/
inductive ChatStatus where
  | ready
  | submitted
  | streaming
  | error
deriving DecidableEq

/-- A chat message as far as the claims need it. -/
structure ChatMessage where
  role : String
  text : String
deriving DecidableEq

/-- The sidebar component state: the view tab, the settings form fields
(`provider`, `apiKey`), the last-saved settings snapshot
(`savedSettings`), the chat input, the `useChat` status and message
list, the active-document props/context and the attachment list. -/
structure SidebarState where
  view : View
  provider : String
  apiKey : String
  savedProvider : String
  savedApiKey : String
  input : String
  status : ChatStatus
  messages : List ChatMessage
  activeFileTitle : Option String
  activeFileContext : Option String
  attachedFilesContext : List Attachment
deriving DecidableEq

/-- Sidebar line 122: `status === "streaming" || status === "submitted"`. -/
def isLoading (st : SidebarState) : Bool :=
  st.status == .streaming || st.status == .submitted

/-- Sidebar lines 93-98, `handleSaveSettings`: the form fields overwrite
the saved snapshot wholesale. -/
def handleSaveSettings (st : SidebarState) : SidebarState :=
  { st with savedProvider := st.provider, savedApiKey := st.apiKey }

/-- The request body posted by `sendMessage` (sidebar lines 202-211). -/
structure ChatRequestBody where
  provider : String
  apiKey : String
  context : Option String
deriving DecidableEq

/-- A request issued by a submission: the user text and the body. -/
structure SentMessage where
  text : String
  body : ChatRequestBody
deriving DecidableEq

/-- Semantics of JavaScript `String.prototype.trim()`: strip whitespace
from both ends. -/
def strTrim (s : String) : String :=
  ⟨((s.data.dropWhile Char.isWhitespace).reverse.dropWhile Char.isWhitespace).reverse⟩

/-- `onSubmit` (sidebar lines 179-213): returns the successor state and
the issued request, if any.  Line 181 drops the submission when the
trimmed input is empty or a request is in flight; line 183 redirects to
the settings view when the saved snapshot has no API key and the saved
provider is not ollama; otherwise the aggregated context is computed,
`sendMessage` appends the user message and posts the body, and the
input is cleared. -/
def onSubmit (st : SidebarState) : SidebarState × Option SentMessage :=
  if strTrim st.input == "" || isLoading st then
    (st, none)
  else if st.savedApiKey == "" && !(st.savedProvider == "ollama") then
    ({ st with view := .settings }, none)
  else
    let context := aggregateContext st.activeFileTitle st.activeFileContext
      st.attachedFilesContext
    ({ st with
        input := "",
        messages := st.messages ++ [⟨"user", st.input⟩] },
      some ⟨st.input, ⟨st.savedProvider, st.savedApiKey, requestBodyContext context⟩⟩)

/-- `handleSelectFromQueue` (sidebar lines 68-79) given the awaited
outcome of `extractTextFromPdfUrl(url)`: on success the attachment is
appended; on a thrown error only an alert is shown. -/
def handleSelectFromQueue (st : SidebarState) (title : String)
    (result : Except String String) : SidebarState :=
  match result with
  | .ok text =>
      { st with attachedFilesContext := st.attachedFilesContext ++ [⟨title, text⟩] }
  | .error _ => st

/-- `handleFileUpload` (sidebar lines 154-171) given, for each selected
file in order, its name and the awaited outcome of
`extractTextFromFile(file)`: each success appends an attachment, each
failure only alerts, and the loop continues with the next file. -/
def handleFileUpload (st : SidebarState)
    (files : List (String × Except String String)) : SidebarState :=
  files.foldl
    (fun st file =>
      match file.2 with
      | .ok text =>
          { st with attachedFilesContext := st.attachedFilesContext ++ [⟨file.1, text⟩] }
      | .error _ => st)
    st

/-- `removeAttachment` (sidebar lines 173-175):
`prev.filter((_, idx) => idx !== indexToRemove)`. -/
def removeAttachment (attachedFilesContext : List Attachment)
    (indexToRemove : Nat) : List Attachment :=
  (attachedFilesContext.enum.filter (fun p => p.1 != indexToRemove)).map (·.2)

/-! ## Concrete fixtures -/

/-- A 51-page PDF each of whose pages has no text items. -/
def pdf51 : PdfDocument := ⟨List.replicate 51 []⟩

/-- A concrete sidebar state with a streaming response in flight. -/
def streamingState : SidebarState :=
  { view := .chat, provider := "google", apiKey := "", savedProvider := "google",
    savedApiKey := "k", input := "hello", status := .streaming,
    messages := [⟨"user", "hi"⟩, ⟨"assistant", "hey"⟩],
    activeFileTitle := none, activeFileContext := none,
    attachedFilesContext := [] }

/-- A concrete sidebar state whose saved snapshot has no credential. -/
def unsavedKeyState : SidebarState :=
  { view := .chat, provider := "openai", apiKey := "", savedProvider := "openai",
    savedApiKey := "", input := "hello", status := .ready,
    messages := [⟨"user", "hi"⟩], activeFileTitle := none,
    activeFileContext := none, attachedFilesContext := [] }

/-- The attachment produced by one uploaded file, if its extraction
succeeded. -/
def uploadAttachment (f : String × Except String String) : Option Attachment :=
  match f.2 with
  | .ok t => some ⟨f.1, t⟩
  | .error _ => none

/-! ## Claims about validation and routing -/

/-- C1: the claim states that a request with provider ollama and an
absent (or empty) credential is NOT rejected by the missing-field
validation.  The code behaves otherwise: route.ts line 13 tests
`!provider || !apiKey` before any provider branching, so an ollama
request with a falsy credential is rejected with 400 Missing provider
or API key, which makes the `apiKey || "http://localhost:11434/api"`
default at line 30 unreachable and contradicts the client gate that
deliberately lets ollama submit without a key.  This theorem evaluates
the handler at the failing inputs. -/
theorem C1_ollama_empty_credential_rejected :
    POST (some "ollama") (some "") none = PostResult.badRequest missingFieldBody ∧
    POST (some "ollama") none none = PostResult.badRequest missingFieldBody := by
  constructor <;> rfl

/-- C3: every request that passes the missing-field check (truthy
provider and credential) whose provider is none of openai, anthropic,
google, ollama is rejected with 400 and body
`\x7b"error":"Invalid provider"\x7d`. -/
theorem C3_unknown_provider_rejected (provider apiKey : String)
    (context : Option String) (hp : provider ≠ "") (hk : apiKey ≠ "")
    (h1 : provider ≠ "openai") (h2 : provider ≠ "anthropic")
    (h3 : provider ≠ "google") (h4 : provider ≠ "ollama") :
    POST (some provider) (some apiKey) context
      = PostResult.badRequest invalidProviderBody := by
  simp [POST, jsTruthy, resolveProvider, hp, hk, h1, h2, h3, h4]

/-- C3 witness: the spec's own example, `resolve("bogus", "key")`. -/
theorem C3_witness :
    POST (some "bogus") (some "key") none
      = PostResult.badRequest invalidProviderBody :=
  C3_unknown_provider_rejected "bogus" "key" none (by decide) (by decide)
    (by decide) (by decide) (by decide) (by decide)

/-- C4: the provider router maps openai to gpt-4o, anthropic to
claude-3-5-sonnet-latest, google to gemini-2.5-flash, and ollama to
llama3.1 with the credential as base URL and the default
http://localhost:11434/api when the credential is empty. -/
theorem C4_provider_model_mapping (k : String) (hk : k ≠ "") :
    resolveProvider "openai" k = some ⟨.openai k, "gpt-4o"⟩ ∧
    resolveProvider "anthropic" k = some ⟨.anthropic k, "claude-3-5-sonnet-latest"⟩ ∧
    resolveProvider "google" k = some ⟨.google k, "gemini-2.5-flash"⟩ ∧
    resolveProvider "ollama" k = some ⟨.ollama k, "llama3.1"⟩ ∧
    resolveProvider "ollama" "" = some ⟨.ollama "http://localhost:11434/api", "llama3.1"⟩ := by
  refine ⟨rfl, rfl, rfl, ?_, rfl⟩
  simp [resolveProvider, hk]

/-- C4 witness: the mapping at the concrete credential "key". -/
theorem C4_witness :
    resolveProvider "openai" "key" = some ⟨.openai "key", "gpt-4o"⟩ ∧
    resolveProvider "anthropic" "key" = some ⟨.anthropic "key", "claude-3-5-sonnet-latest"⟩ ∧
    resolveProvider "google" "key" = some ⟨.google "key", "gemini-2.5-flash"⟩ ∧
    resolveProvider "ollama" "key" = some ⟨.ollama "key", "llama3.1"⟩ ∧
    resolveProvider "ollama" "" = some ⟨.ollama "http://localhost:11434/api", "llama3.1"⟩ :=
  C4_provider_model_mapping "key" (by decide)

/-! ## Claims about the Extraction Service -/

/-- The page loop with an arbitrary accumulator: it emits the page texts
in order, each followed by a blank-line separator. -/
theorem pdfPagesFold (pages : List (List String)) (acc : String) :
    pages.foldl (fun fullText page => fullText ++ (pageText page ++ "\n\n")) acc
      = acc ++ joinSep "\n\n" (pages.map pageText ++ [""]) := by
  induction pages generalizing acc with
  | nil => simp [joinSep]
  | cons p ps ih =>
      simp only [List.foldl_cons, List.map_cons, List.cons_append]
      rw [ih]
      cases hps : ps.map pageText ++ [""] with
      | nil => simp at hps
      | cons b t =>
          simp only [joinSep]
          simp [String.append_assoc]

/-- The page loop in join form: the processed pages' texts in order,
separated (and terminated) by blank lines. -/
theorem pdfPagesLoop_eq (pages : List (List String)) :
    pdfPagesLoop pages = joinSep "\n\n" (pages.map pageText ++ [""]) := by
  simpa [pdfPagesLoop] using pdfPagesFold pages ""

/-- C2 counterexample: for the locally supplied 51-page PDF `pdf51`,
`extractTextFromFile` appends no truncation notice, although the claim
asserts that every PDF source with more than 50 pages gets one: the
notice is not a suffix of the result (the result even contains no
right-bracket character, while the notice ends in one). -/
theorem C2_counterexample :
    50 < pdf51.pages.length ∧
    (extractTextFromFile (.pdf pdf51)).data.contains (Char.ofNat 93) = false ∧
    truncationNotice50.data.getLast? = some (Char.ofNat 93) ∧
    ¬ ∃ body : String, extractTextFromFile (.pdf pdf51) = body ++ truncationNotice50 := by
  refine ⟨by decide, by decide, by decide, ?_⟩
  rintro ⟨body, hb⟩
  have hd := congrArg String.data hb
  rw [String.data_append] at hd
  have h1 : (extractTextFromFile (.pdf pdf51)).data.getLast? = some (Char.ofNat 10) := by
    decide
  rw [hd, List.getLast?_append_of_ne_nil _ (by decide)] at h1
  have h2 : truncationNotice50.data.getLast? = some (Char.ofNat 93) := by decide
  rw [h2] at h1
  simp at h1

/-- C2 amended: both extractors read the first `min(pageCount, 50)`
pages in page order and emit the per-page texts in that order, each
followed by a blank-line separator (so page i's text always precedes
page i+1's); the literal truncation notice is appended only by the
remote-URL extractor when `pageCount > 50` — the file extractor never
appends it. -/
theorem C2_extraction_join_and_truncation (pdf : PdfDocument) :
    extractTextFromPdfUrl pdf
      = joinSep "\n\n" ((pdf.pages.take (min pdf.pages.length 50)).map pageText ++ [""])
        ++ (if 50 < pdf.pages.length then truncationNotice50 else "") ∧
    extractTextFromFile (.pdf pdf)
      = joinSep "\n\n" ((pdf.pages.take (min pdf.pages.length 50)).map pageText ++ [""]) := by
  refine ⟨?_, by simp [extractTextFromFile, pdfPagesLoop_eq]⟩
  by_cases h : 50 < pdf.pages.length
  · have hmin : min pdf.pages.length 50 = 50 := Nat.min_eq_right h.le
    simp only [extractTextFromPdfUrl, hmin, pdfPagesLoop_eq, truncationNotice50,
      gt_iff_lt, h, if_pos]
    rfl
  · have hmin : min pdf.pages.length 50 = pdf.pages.length :=
      Nat.min_eq_left (Nat.le_of_not_lt h)
    simp [extractTextFromPdfUrl, hmin, pdfPagesLoop_eq, h]

/-! ## Claims about the Context Aggregator -/

/-- C5: with an active context present (truthy title and extracted
text), the aggregated context is exactly the active-document section
first, followed by one section per attachment in attachment-list order,
joined with a blank-line separator, each section being a header line
identifying the document kind and name followed by its extracted text;
without an active context the sections are the attachment sections in
list order. -/
theorem C5_context_ordering (title ctx : String) (atts : List Attachment)
    (ht : title ≠ "") (hc : ctx ≠ "") :
    aggregateContext (some title) (some ctx) atts
      = some (joinSep "\n\n" (activeSection title ctx :: atts.map attachedSection)) ∧
    (atts ≠ [] → aggregateContext none none atts
      = some (joinSep "\n\n" (atts.map attachedSection))) := by
  constructor
  · simp [aggregateContext, contextFragments, jsTruthy, ht, hc]
  · intro ha
    simp [aggregateContext, contextFragments, jsTruthy, ha]

/-- C5 witness: one attachment behind an active document. -/
theorem C5_witness :
    aggregateContext (some "Unit 1") (some "active text") [⟨"notes.pdf", "note text"⟩]
      = some (joinSep "\n\n" (activeSection "Unit 1" "active text"
          :: [Attachment.mk "notes.pdf" "note text"].map attachedSection)) ∧
    aggregateContext none none [⟨"notes.pdf", "note text"⟩]
      = some (joinSep "\n\n" ([Attachment.mk "notes.pdf" "note text"].map attachedSection)) :=
  ⟨(C5_context_ordering "Unit 1" "active text" [⟨"notes.pdf", "note text"⟩]
      (by decide) (by decide)).1,
   (C5_context_ordering "Unit 1" "active text" [⟨"notes.pdf", "note text"⟩]
      (by decide) (by decide)).2 (by simp)⟩

/-- C6: with no active context and no attachments the aggregation is
absent; the request body then omits the context field; and the server
appends a Document Context block to the system prompt exactly when the
client-built body carries a context value. -/
theorem C6_empty_context_omitted :
    (∀ t c : Option String, ¬(jsTruthy t = true ∧ jsTruthy c = true) →
      aggregateContext t c [] = none) ∧
    requestBodyContext none = none ∧
    (∀ agg : Option String,
      systemWithContext (requestBodyContext agg) ≠ studyAssistantSystem
        ↔ requestBodyContext agg ≠ none) := by
  refine ⟨?_, rfl, ?_⟩
  · intro t c h
    have hb : (jsTruthy t && jsTruthy c) = false := by
      cases htc : jsTruthy t && jsTruthy c
      · rfl
      · exact absurd (by simpa [Bool.and_eq_true] using htc) h
    simp [aggregateContext, contextFragments, hb]
  · intro agg
    match agg with
    | none => simp [requestBodyContext, systemWithContext, jsTruthy]
    | some s =>
        by_cases hs : s = ""
        · subst hs
          simp [requestBodyContext, systemWithContext, jsTruthy]
        · have ht : jsTruthy (some s) = true := by simp [jsTruthy, hs]
          have hneq : systemWithContext (some s) ≠ studyAssistantSystem := by
            intro heq
            have hlen := congrArg String.length heq
            simp only [systemWithContext, ht, if_pos, Option.getD_some,
              String.length_append] at hlen
            have h20 : ("\n\nDocument Context:\n").length = 20 := rfl
            omega
          simp [requestBodyContext, ht, hneq]

/-- C6 witness: the empty aggregation, the omitted body field, and the
system-prompt iff at a concrete context value. -/
theorem C6_witness :
    aggregateContext none none [] = none ∧
    requestBodyContext none = none ∧
    (systemWithContext (requestBodyContext (some "ctx")) ≠ studyAssistantSystem
      ↔ requestBodyContext (some "ctx") ≠ none) :=
  ⟨C6_empty_context_omitted.1 none none (by decide),
   C6_empty_context_omitted.2.1,
   C6_empty_context_omitted.2.2 (some "ctx")⟩

/-! ## Claims about the Client Chat State Machine -/

/-- C7: while the status is submitted or streaming, or while the trimmed
input is empty, a submission attempt is a no-op: the message list is
unchanged and no request is issued. -/
theorem C7_submission_noop (st : SidebarState)
    (h : isLoading st = true ∨ strTrim st.input = "") :
    (onSubmit st).1.messages = st.messages ∧ (onSubmit st).2 = none := by
  have hcond : (strTrim st.input == "" || isLoading st) = true := by
    rcases h with h | h <;> simp [h]
  simp [onSubmit, hcond]

/-- C7 witness: submitting while streaming leaves the two rendered
messages in place and issues nothing. -/
theorem C7_witness :
    (onSubmit streamingState).1.messages = streamingState.messages ∧
    (onSubmit streamingState).2 = none :=
  C7_submission_noop streamingState (Or.inl (by decide))

/-- C10: the credential gate reads the saved settings snapshot, not the
settings form: whatever credential is typed into the form field
(`typedKey`), if the saved credential is empty and the saved provider is
not ollama, a submission with non-empty trimmed input issues no request,
switches the view to settings, and leaves the message list unchanged. -/
theorem C10_gate_reads_saved_settings (st : SidebarState) (typedKey : String)
    (hin : strTrim st.input ≠ "") (hload : isLoading st = false)
    (hkey : st.savedApiKey = "") (hprov : st.savedProvider ≠ "ollama") :
    (onSubmit { st with apiKey := typedKey }).2 = none ∧
    (onSubmit { st with apiKey := typedKey }).1.view = View.settings ∧
    (onSubmit { st with apiKey := typedKey }).1.messages = st.messages := by
  have hload2 : isLoading { st with apiKey := typedKey } = false := hload
  have hc1 : (strTrim ({ st with apiKey := typedKey } : SidebarState).input == ""
      || isLoading { st with apiKey := typedKey }) = false := by
    simp [hload2, hin]
  have hc2 : (({ st with apiKey := typedKey } : SidebarState).savedApiKey == ""
      && !(({ st with apiKey := typedKey } : SidebarState).savedProvider == "ollama"))
      = true := by
    simp [hkey, hprov]
  simp [onSubmit, hc1, hc2]

/-- C10 witness: with a key typed but not saved, submission is gated to
the settings view. -/
theorem C10_witness :
    (onSubmit { unsavedKeyState with apiKey := "sk-typed" }).2 = none ∧
    (onSubmit { unsavedKeyState with apiKey := "sk-typed" }).1.view = View.settings ∧
    (onSubmit { unsavedKeyState with apiKey := "sk-typed" }).1.messages
      = unsavedKeyState.messages :=
  C10_gate_reads_saved_settings unsavedKeyState "sk-typed" (by decide) (by decide)
    rfl (by decide)

/-- C8: a failed extraction adds nothing and removes nothing — the
attachment list is untouched; a successful one appends exactly its
attachment; and a multi-file upload appends exactly the successfully
extracted files' attachments, in file order, after all previous entries,
so a failing file neither disturbs earlier attachments nor prevents
later files from being attached. -/
theorem C8_extraction_failures_contained (st : SidebarState)
    (title e text : String) (files : List (String × Except String String)) :
    handleSelectFromQueue st title (.error e) = st ∧
    (handleSelectFromQueue st title (.ok text)).attachedFilesContext
      = st.attachedFilesContext ++ [⟨title, text⟩] ∧
    (handleFileUpload st files).attachedFilesContext
      = st.attachedFilesContext ++ files.filterMap uploadAttachment := by
  refine ⟨rfl, rfl, ?_⟩
  induction files generalizing st with
  | nil => simp [handleFileUpload]
  | cons f fs ih =>
      obtain ⟨name, res⟩ := f
      cases res with
      | ok t =>
          simpa [handleFileUpload, uploadAttachment, List.append_assoc] using
            ih { st with
              attachedFilesContext := st.attachedFilesContext ++ [⟨name, t⟩] }
      | error e2 =>
          simpa [handleFileUpload, uploadAttachment] using ih st

/-- All elements of `enumFrom m l` keep their pairing when filtered
against an index below `m`. -/
theorem enumFromFilterBelow (l : List Attachment) (m k : Nat) (hk : k < m) :
    (l.enumFrom m).filter (fun p => p.1 != k) = l.enumFrom m := by
  induction l generalizing m with
  | nil => rfl
  | cons a tl ih =>
      have hm : (m != k) = true := by simp [Nat.ne_of_gt hk]
      simp only [List.enumFrom, List.filter_cons, hm, if_pos]
      rw [ih (m + 1) (Nat.lt_succ_of_lt hk)]

/-- Dropping the indices of an enumeration recovers the list. -/
theorem enumFromMapSnd (l : List Attachment) (m : Nat) :
    (l.enumFrom m).map (·.2) = l := by
  induction l generalizing m with
  | nil => rfl
  | cons a tl ih => simp only [List.enumFrom, List.map_cons, ih]

/-- Filtering an enumeration from `n` on index different from `n + i`
and dropping the indices removes exactly position `i`. -/
theorem enumFromFilterRemove (l : List Attachment) (n i : Nat) :
    ((l.enumFrom n).filter (fun p => p.1 != (n + i))).map (·.2)
      = l.take i ++ l.drop (i + 1) := by
  induction l generalizing n i with
  | nil => simp
  | cons a tl ih =>
      cases i with
      | zero =>
          have hn : (n != n + 0) = false := by simp
          simp only [List.enumFrom, List.filter_cons, hn]
          rw [enumFromFilterBelow tl (n + 1) (n + 0) (by omega)]
          simp [enumFromMapSnd]
      | succ j =>
          have hn : (n != n + (j + 1)) = true := by simp
          simp only [List.enumFrom, List.filter_cons, hn, if_pos, List.map_cons]
          have := ih (n + 1) j
          rw [show n + 1 + j = n + (j + 1) by omega] at this
          rw [this]
          simp

/-- C9: removing the attachment at an in-range index `i` yields a list
one shorter containing all other attachments in their original relative
order (the prefix before `i` followed by the suffix after `i`). -/
theorem C9_remove_attachment (l : List Attachment) (i : Nat) (h : i < l.length) :
    (removeAttachment l i).length = l.length - 1 ∧
    removeAttachment l i = l.take i ++ l.drop (i + 1) := by
  have he : removeAttachment l i = l.take i ++ l.drop (i + 1) := by
    have := enumFromFilterRemove l 0 i
    rw [Nat.zero_add] at this
    simpa [removeAttachment, List.enum] using this
  refine ⟨?_, he⟩
  rw [he, List.length_append, List.length_take, List.length_drop]
  omega

/-- C9 witness: removing index 1 from a three-element list. -/
theorem C9_witness :
    (removeAttachment [⟨"a", "1"⟩, ⟨"b", "2"⟩, ⟨"c", "3"⟩] 1).length
      = ([⟨"a", "1"⟩, ⟨"b", "2"⟩, ⟨"c", "3"⟩] : List Attachment).length - 1 ∧
    removeAttachment [⟨"a", "1"⟩, ⟨"b", "2"⟩, ⟨"c", "3"⟩] 1
      = ([⟨"a", "1"⟩, ⟨"b", "2"⟩, ⟨"c", "3"⟩] : List Attachment).take 1
          ++ ([⟨"a", "1"⟩, ⟨"b", "2"⟩, ⟨"c", "3"⟩] : List Attachment).drop (1 + 1) :=
  C9_remove_attachment [⟨"a", "1"⟩, ⟨"b", "2"⟩, ⟨"c", "3"⟩] 1 (by decide)
